import Mathlib

/-!
Verification model of the ledgerly-blockchain middleware
(`src/scripts/app.js`): key vault (AES-256-GCM at rest), funding
eligibility store, payment endpoints (faucet, email-to-email,
wallet-to-wallet), settlement watcher and nonce handling.

JavaScript numeric comparisons on `parseFloat` results are modelled with
an explicit NaN value (`JsNum.nan`): every comparison involving NaN is
false, exactly as in JS.  Amount strings are modelled as exact
scaled decimals (the IEEE rounding of `parseFloat` is immaterial for the
properties below, which only compare magnitudes far from the 2^53
precision edge).  The aes-256-gcm
primitive from the node `crypto` library is external to the repository and
is modelled as an idealized authenticated stream cipher: the body is an
XOR keystream (as in GCM's CTR mode), and the authentication tag a
deterministic injective MAC of (key, iv, ciphertext); `decrypt` recomputes
the tag and fails closed on mismatch, mirroring `decipher.final()`.
-/

namespace Ledgerly

/-- Result of JavaScript `parseFloat`: NaN, or the exact decimal
`n / 10 ^ scale`.  (Decimal strings parse to exact finite decimals; the
IEEE rounding of `parseFloat` is immaterial for the magnitude
comparisons below.) -/
inductive JsNum
  | nan
  | dec (n : ℤ) (scale : ℕ)
deriving DecidableEq

/-- JS `x <= c` for an integer constant `c`: false on NaN, otherwise the
exact comparison `n / 10 ^ s <= c`. -/
def jsNumLe (x : JsNum) (c : ℤ) : Bool :=
  match x with
  | .nan => false
  | .dec n s => decide (n ≤ c * ((10 ^ s : ℕ) : ℤ))

/-- JS `x > c` for an integer constant `c`: false on NaN. -/
def jsNumGt (x : JsNum) (c : ℤ) : Bool :=
  match x with
  | .nan => false
  | .dec n s => decide (c * ((10 ^ s : ℕ) : ℤ) < n)

/-- JS `parseFloat(fromWei(balanceWei)) < x`: false on NaN, otherwise the
exact cross-multiplied comparison `balanceWei / 10 ^ 18 < n / 10 ^ s`. -/
def jsBalLt (balanceWei : ℕ) (x : JsNum) : Bool :=
  match x with
  | .nan => false
  | .dec n s =>
      decide ((balanceWei : ℤ) * ((10 ^ s : ℕ) : ℤ) < n * ((10 ^ 18 : ℕ) : ℤ))

/-- Value of a list of decimal digit characters. -/
def digitsToNat (l : List Char) : ℕ :=
  l.foldl (fun a c => a * 10 + (c.toNat - 48)) 0

/-- Core decimal parser shared by the models of `parseFloat` and
`web3.utils.toWei`: optional sign, integer digits, optional fraction.
Returns the signed scaled value `(n, scale)` (the number is
`n / 10 ^ scale`) and the unconsumed remainder, or `none` when no digit
was consumed.  (Exponent suffixes are not modelled; no property below
depends on them.) -/
def parseNumCore (l : List Char) : Option ((ℤ × ℕ) × List Char) :=
  let signed : Bool × List Char :=
    match l with
    | '-' :: r => (true, r)
    | '+' :: r => (false, r)
    | _ => (false, l)
  let ip := signed.2.takeWhile Char.isDigit
  let l2 := signed.2.dropWhile Char.isDigit
  let fpRest : List Char × List Char :=
    match l2 with
    | '.' :: r => (r.takeWhile Char.isDigit, r.dropWhile Char.isDigit)
    | _ => ([], l2)
  if ip = [] ∧ fpRest.1 = [] then none
  else
    let mag : ℕ := digitsToNat ip * 10 ^ fpRest.1.length + digitsToNat fpRest.1
    some (((if signed.1 then -(mag : ℤ) else (mag : ℤ)), fpRest.1.length),
      fpRest.2)

/-- Model of JS `parseFloat`: leading spaces skipped, longest numeric
prefix parsed, NaN when no digit is found. -/
def parseFloat (s : String) : JsNum :=
  match parseNumCore (s.data.dropWhile (fun c => c = ' ')) with
  | none => .nan
  | some p => .dec p.1.1 p.1.2

/-- Model of `web3.utils.toWei(s, 'ether')`: requires the whole string to
be a decimal number with at most 18 decimal places, otherwise throws;
returns the exact wei value. -/
def jsToWei (s : String) : Except String ℤ :=
  match parseNumCore s.data with
  | some ((n, sc), []) =>
      if sc ≤ 18 then .ok (n * ((10 ^ (18 - sc) : ℕ) : ℤ))
      else .error ("too many decimal places: " ++ s)
  | _ => .error ("while converting number to BN.js instance: " ++ s)

/-- ASCII lower-casing of one character, as JS `toLowerCase` acts on the
hex-address alphabet. -/
def jsCharLower (c : Char) : Char :=
  if 'A' ≤ c ∧ c ≤ 'Z' then Char.ofNat (c.toNat + 32) else c

/-- Model of JS `String.prototype.toLowerCase` on addresses. -/
def jsToLowerCase (s : String) : String :=
  ⟨s.data.map jsCharLower⟩

/-- Hexadecimal digit test. -/
def isHexDigitChar (c : Char) : Bool :=
  c.isDigit || ('a' ≤ c && c ≤ 'f') || ('A' ≤ c && c ≤ 'F')

/-- Model of `web3.utils.isAddress`: `0x` followed by 40 hex digits (the
EIP-55 mixed-case checksum test is not modelled; all inputs used below
are single-case, which web3 always accepts). -/
def isAddress (s : String) : Bool :=
  decide (s.length = 42) && decide (s.data.take 2 = ['0', 'x']) &&
    (s.data.drop 2).all isHexDigitChar

/-- Lower-case hex digit for a value below 16. -/
def hexDigitChar (n : ℕ) : Char :=
  if n < 10 then Char.ofNat (48 + n) else Char.ofNat (87 + n)

/-- Two hex characters of one byte. -/
def hexByteChars (b : ℕ) : List Char :=
  [hexDigitChar (b / 16 % 16), hexDigitChar (b % 16)]

/-- Hex string of a byte list, as `Buffer.toString('hex')`. -/
def hexOfBytes (bs : List ℕ) : String :=
  ⟨(bs.map hexByteChars).flatten⟩

/-- Byte view of a string (the `utf8` input of `cipher.update`; keys are
ASCII hex strings so code points and bytes coincide). -/
def strBytes (s : String) : List ℕ :=
  s.data.map Char.toNat

/- ===== Key vault: idealized AES-256-GCM (node `crypto` is external) ===== -/

/-- Idealized CTR keystream byte `i` under `(key, iv)`. -/
def gcmKeystream (key iv i : ℕ) : ℕ :=
  (key + 31 * iv + 131 * i) % 256

/-- XOR of a byte list against the keystream starting at position `i`;
GCM encrypts and decrypts the body with the same operation. -/
def xorStream (key iv i : ℕ) : List ℕ → List ℕ
  | [] => []
  | b :: rest => Nat.xor b (gcmKeystream key iv i) :: xorStream key iv (i + 1) rest

/-- Cipher body under `(key, iv)` (an involution, as CTR mode is). -/
def gcmBody (key iv : ℕ) (bs : List ℕ) : List ℕ :=
  xorStream key iv 0 bs

/-- Base-257 positional encoding of a byte list into `ℕ`, injective on
lists whose elements are bytes (below 256). -/
def encodeBytes : List ℕ → ℕ
  | [] => 0
  | b :: rest => b + 1 + 257 * encodeBytes rest

/-- Idealized authentication tag: a deterministic MAC of
`(key, iv, ciphertext)`, injective in the key and the iv, and in the
ciphertext as long as it is a byte list (real GHASH is
collision-resistant rather than injective; the idealization is what makes
the absolute fail-closed statements provable). -/
def gcmTag (key iv : ℕ) (content : List ℕ) : ℕ :=
  Nat.pair key (Nat.pair iv (encodeBytes content))

/-- Stored shape of an encrypted key: `{iv, content, tag}` as returned by
`encrypt` in `app.js`. -/
structure EncryptedRecord where
  iv : ℕ
  content : List ℕ
  tag : ℕ
deriving DecidableEq

/-- Integrity failure raised by `decipher.final()` on tag mismatch. -/
inductive CryptoError
  | authTagMismatch
deriving DecidableEq

/-- `encrypt(text)` from `app.js`: fresh random `iv` per call (passed here
as an argument), GCM body, authentication tag over the ciphertext. -/
def encrypt (key iv : ℕ) (textBytes : List ℕ) : EncryptedRecord :=
  let c := gcmBody key iv textBytes
  { iv := iv, content := c, tag := gcmTag key iv c }

/-- `decrypt(encrypted)` from `app.js`: recomputes the tag over the stored
ciphertext under the process key and the stored iv; fails closed on
mismatch, otherwise inverts the body. -/
def decrypt (key : ℕ) (e : EncryptedRecord) : Except CryptoError (List ℕ) :=
  if gcmTag key e.iv e.content = e.tag then .ok (gcmBody key e.iv e.content)
  else .error .authTagMismatch

/- ===== Wallet store and key resolution ===== -/

/-- One entry of `wallet-store.json`, as written by `/wallet/create`:
`{encryptedKey, address, createdAt, userName}`. -/
structure WalletRecord where
  encryptedKey : EncryptedRecord
  address : String
  createdAt : ℕ
  userName : String
deriving DecidableEq

/-- In-memory view of a JSON object as an insertion-ordered association
list, matching `Object.entries` iteration order for string keys. -/
def objLookup {α : Type} (st : List (String × α)) (k : String) : Option α :=
  (st.find? (fun e => e.1 = k)).map (fun e => e.2)

/-- JS `obj[k] = v`: overwrite in place when the key exists, append
otherwise. -/
def objSet {α : Type} (st : List (String × α)) (k : String) (v : α) :
    List (String × α) :=
  if (st.find? (fun e => e.1 = k)).isSome then
    st.map (fun e => if e.1 = k then (k, v) else e)
  else st ++ [(k, v)]

/-- `getPrivateKeyForWallet(walletAddress)` from `app.js`: linear scan of
`Object.entries(walletStore)` for a case-insensitive address match,
decrypting the first hit; throws not-found otherwise.  (The decrypt error
string is the node GCM authentication failure message.) -/
def getPrivateKeyForWallet (key : ℕ) (walletStore : List (String × WalletRecord))
    (walletAddress : String) : Except String (List ℕ) :=
  match walletStore.find?
      (fun e => jsToLowerCase e.2.address = jsToLowerCase walletAddress) with
  | some e =>
      match decrypt key e.2.encryptedKey with
      | .ok pk => .ok pk
      | .error _ => .error "Unsupported state or unable to authenticate data"
  | none => .error ("Private key not found for wallet: " ++ walletAddress)

/- ===== Funding eligibility store (`funded-wallets.json`) ===== -/

/-- One row of the funding-eligibility store: `{funded, timestamp}`. -/
structure FundRecord where
  funded : Bool
  timestamp : ℕ
deriving DecidableEq

/-- The funding-eligibility store, keyed by address. -/
abbrev FundStore := List (String × FundRecord)

/-- `isWalletEligibleForBonus(walletAddress)` from `app.js`:
`!fundedWallets[a] || !fundedWallets[a].funded`. -/
def isWalletEligibleForBonus (st : FundStore) (walletAddress : String) : Bool :=
  match objLookup st walletAddress with
  | none => true
  | some r => !r.funded

/-- `markWalletFunded(walletAddress)` from `app.js`: set
`fundedWallets[a] = {funded: true, timestamp}` and save the store. -/
def markWalletFunded (st : FundStore) (walletAddress : String) (now : ℕ) :
    FundStore :=
  objSet st walletAddress { funded := true, timestamp := now }

/-- `GET /wallet/bonus-eligible/:walletAddress`: 400 on a malformed
address, else `{success, eligible}`. -/
def bonusEligibleEndpoint (st : FundStore) (walletAddress : String) :
    Except String Bool :=
  if isAddress walletAddress then .ok (isWalletEligibleForBonus st walletAddress)
  else .error "Invalid wallet address"

/- ===== Payment data model ===== -/

/-- Off-chain transaction record payload POSTed to the backend by
`createTransactionPHP`, field for field as built in `app.js`. -/
structure TxRecordPayload where
  transaction_id : String
  wallet_address : String
  from_address : String
  to_address : String
  amount : String
  currency_symbol : String
  transaction_type : String
  direction : String
  status : String
  memo : String
  network_mode : String
deriving DecidableEq

/-- Externally visible side effects of one request, in program order:
backend identity lookups, chain RPC calls, off-chain record creations and
updates, and transaction broadcasts.  The detached settlement monitor is
modelled separately (`monitorSettlement`). -/
inductive Effect
  | backendLookup (email : String)
  | chainGetBalance (addr : String)
  | recordCreate (payload : TxRecordPayload)
  | chainGetNonce (addr : String)
  | chainGetGasPrice
  | chainBroadcast (fromAddr toAddr : String) (amountWei : ℤ)
  | contractSend (fromAddr toAddr : String) (amountWei : ℤ)
  | recordUpdate (transactionId : String) (status : String)
deriving DecidableEq

/-- Is this effect an off-chain record creation? -/
def Effect.isRecordCreate : Effect → Bool
  | .recordCreate _ => true
  | _ => false

/-- Is this effect a chain transaction broadcast (direct or through the
PaymentManager contract)? -/
def Effect.isBroadcast : Effect → Bool
  | .chainBroadcast _ _ _ => true
  | .contractSend _ _ _ => true
  | _ => false

/-- Is this effect any chain RPC call? -/
def Effect.isChainCall : Effect → Bool
  | .chainGetBalance _ => true
  | .chainGetNonce _ => true
  | .chainGetGasPrice => true
  | .chainBroadcast _ _ _ => true
  | .contractSend _ _ _ => true
  | _ => false

/-- HTTP outcome of a payment endpoint, keeping the status class and the
`error` string of the JSON body. -/
inductive PayResp
  | badRequest (msg : String)
  | notFound (msg : String)
  | tooManyRequests (msg : String)
  | serverError (msg : String)
  | submitted (transactionId txHash : String) (recordsCreated : ℕ)
  | faucetSubmitted (transactionId txHash : String)
deriving DecidableEq

/-- Is this response a synchronous 400 validation rejection? -/
def PayResp.isValidationError : PayResp → Bool
  | .badRequest _ => true
  | _ => false

/-- Environment of one request: the backend collaborator, the chain and
the local stores, plus the outcome of each fallible collaborator call
(`senderCreateOk`/`receiverCreateOk`/`faucetCreateOk` are the `success`
flags returned by `createTransactionPHP`). -/
structure Env where
  emailWallet : String → Option String
  balanceWei : String → ℕ
  senderCreateOk : Bool
  receiverCreateOk : Bool
  faucetCreateOk : Bool
  walletStore : List (String × WalletRecord)
  encKey : ℕ
  broadcastResult : Except String String
  contractSendResult : Except String String
  networkMode : String
  deployer : String

/-- Request body of `POST /payment/email-to-email`; a missing JSON field
is the falsy empty string. -/
structure EmailReq where
  fromEmail : String
  toEmail : String
  amountEth : String
  memo : String

/-- Request body of `POST /payment/wallet-to-wallet`. -/
structure WalletReq where
  fromWallet : String
  toWallet : String
  amountEth : String
  memo : String

/-- Request body of `POST /payment/faucet`. -/
structure FaucetReq where
  toWallet : String
  amountEth : String

/- ===== Ledger recorder and chain submitter ===== -/

/-- The sender-side (`outbound`) record payload built by
`createDualTransactionRecords`. -/
def senderRecordPayload (senderWallet receiverWallet amount memo
    transactionId netMode : String) : TxRecordPayload :=
  { transaction_id := transactionId ++ "_sender"
    wallet_address := senderWallet
    from_address := senderWallet
    to_address := receiverWallet
    amount := amount
    currency_symbol := "ETH"
    transaction_type := "send"
    direction := "outbound"
    status := "pending"
    memo := memo
    network_mode := netMode }

/-- The receiver-side (`inbound`) record payload built by
`createDualTransactionRecords`. -/
def receiverRecordPayload (senderWallet receiverWallet amount memo
    transactionId netMode : String) : TxRecordPayload :=
  { transaction_id := transactionId ++ "_receiver"
    wallet_address := receiverWallet
    from_address := senderWallet
    to_address := receiverWallet
    amount := amount
    currency_symbol := "ETH"
    transaction_type := "receive"
    direction := "inbound"
    status := "pending"
    memo := memo
    network_mode := netMode }

/-- `createDualTransactionRecords` from `app.js`: both backend creations
are always attempted (`createTransactionPHP` catches its own failures and
returns `{success:false}`); only the successful ones are pushed, so a
partial failure yields a shorter list and a total failure an empty one. -/
def createDualTransactionRecords (senderOk receiverOk : Bool)
    (senderWallet receiverWallet amount memo transactionId netMode : String) :
    List TxRecordPayload :=
  (if senderOk then
    [senderRecordPayload senderWallet receiverWallet amount memo transactionId netMode]
  else []) ++
  (if receiverOk then
    [receiverRecordPayload senderWallet receiverWallet amount memo transactionId netMode]
  else [])

/-- `sendTransactionWithPrivateKey` from `app.js`: resolve the key from
the wallet store, then `getTransactionCount` (nonce), `getGasPrice`, sign
and broadcast.  No per-sender lock exists around the nonce fetch (see the
interleaving model below).  Returns the outcome and the chain calls
performed. -/
def sendTransactionWithPrivateKey (env : Env) (fromWallet toWallet : String)
    (amountWei : ℤ) : Except String String × List Effect :=
  match getPrivateKeyForWallet env.encKey env.walletStore fromWallet with
  | .error e => (.error e, [])
  | .ok _ =>
      (env.broadcastResult,
       [.chainGetNonce fromWallet, .chainGetGasPrice,
        .chainBroadcast fromWallet toWallet amountWei])

/- ===== Payment orchestrator endpoints ===== -/

/-- `POST /payment/email-to-email` from `app.js`, as run synchronously up
to the HTTP response (the detached confirmation monitor is
`monitorSettlement`).  Checks in source order: required fields, identical
emails, non-positive amount, 1000 ETH ceiling, backend identity
resolution, address well-formedness, identical wallets, live balance,
dual record creation (aborting when both creations failed), wei
conversion, broadcast, then the immediate `submitted` updates. -/
def paymentEmailToEmail (env : Env) (transactionId : String) (req : EmailReq) :
    PayResp × List Effect :=
  if req.fromEmail = "" ∨ req.toEmail = "" ∨ req.amountEth = "" then
    (.badRequest "fromEmail, toEmail, and amountEth are required", [])
  else if req.fromEmail = req.toEmail then
    (.badRequest "Cannot send payment to yourself", [])
  else if jsNumLe (parseFloat req.amountEth) 0 then
    (.badRequest "Amount must be greater than 0", [])
  else if jsNumGt (parseFloat req.amountEth) 1000 then
    (.badRequest "Payment amount cannot exceed 1000 ETH", [])
  else
    let e1 : List Effect := [.backendLookup req.fromEmail]
    match env.emailWallet req.fromEmail with
    | none => (.notFound ("Wallet not found for email: " ++ req.fromEmail), e1)
    | some fromWallet =>
      let e2 := e1 ++ [Effect.backendLookup req.toEmail]
      match env.emailWallet req.toEmail with
      | none => (.notFound ("Wallet not found for email: " ++ req.toEmail), e2)
      | some toWallet =>
        if ¬(isAddress fromWallet ∧ isAddress toWallet) then
          (.badRequest "Invalid wallet address(es) found", e2)
        else if jsToLowerCase fromWallet = jsToLowerCase toWallet then
          (.badRequest "Source and destination wallets are the same", e2)
        else
          let e3 := e2 ++ [Effect.chainGetBalance fromWallet]
          if jsBalLt (env.balanceWei fromWallet) (parseFloat req.amountEth) then
            (.badRequest "Insufficient balance", e3)
          else
            let memo := if req.memo = "" then
                "Payment from " ++ req.fromEmail ++ " to " ++ req.toEmail
              else req.memo
            let sp := senderRecordPayload fromWallet toWallet req.amountEth memo
                transactionId env.networkMode
            let rp := receiverRecordPayload fromWallet toWallet req.amountEth memo
                transactionId env.networkMode
            let e4 := e3 ++ [Effect.recordCreate sp, Effect.recordCreate rp]
            let dualRecords := createDualTransactionRecords env.senderCreateOk
                env.receiverCreateOk fromWallet toWallet req.amountEth memo
                transactionId env.networkMode
            if dualRecords.length = 0 then
              (.serverError "Failed to create transaction records", e4)
            else
              match jsToWei req.amountEth with
              | .error m => (.serverError m, e4)
              | .ok amountWei =>
                match sendTransactionWithPrivateKey env fromWallet toWallet amountWei with
                | (.error m, es) => (.serverError m, e4 ++ es)
                | (.ok txHash, es) =>
                  let e5 := e4 ++ es ++ dualRecords.map
                      (fun r => Effect.recordUpdate r.transaction_id "submitted")
                  (.submitted transactionId txHash dualRecords.length, e5)

/-- `POST /payment/wallet-to-wallet` from `app.js`: required fields,
address well-formedness, identical wallets, non-positive amount, 1000 ETH
ceiling, live balance, dual records, wei conversion, broadcast, immediate
`submitted` updates. -/
def paymentWalletToWallet (env : Env) (transactionId : String) (req : WalletReq) :
    PayResp × List Effect :=
  if req.fromWallet = "" ∨ req.toWallet = "" ∨ req.amountEth = "" then
    (.badRequest "fromWallet, toWallet, and amountEth are required", [])
  else if ¬(isAddress req.fromWallet ∧ isAddress req.toWallet) then
    (.badRequest "Invalid wallet address format", [])
  else if jsToLowerCase req.fromWallet = jsToLowerCase req.toWallet then
    (.badRequest "Cannot send payment to same wallet", [])
  else if jsNumLe (parseFloat req.amountEth) 0 then
    (.badRequest "Amount must be greater than 0", [])
  else if jsNumGt (parseFloat req.amountEth) 1000 then
    (.badRequest "Payment amount cannot exceed 1000 ETH", [])
  else
    let e1 : List Effect := [.chainGetBalance req.fromWallet]
    if jsBalLt (env.balanceWei req.fromWallet) (parseFloat req.amountEth) then
      (.badRequest "Insufficient balance", e1)
    else
      let memo := if req.memo = "" then "Direct wallet transfer" else req.memo
      let sp := senderRecordPayload req.fromWallet req.toWallet req.amountEth memo
          transactionId env.networkMode
      let rp := receiverRecordPayload req.fromWallet req.toWallet req.amountEth memo
          transactionId env.networkMode
      let e2 := e1 ++ [Effect.recordCreate sp, Effect.recordCreate rp]
      let dualRecords := createDualTransactionRecords env.senderCreateOk
          env.receiverCreateOk req.fromWallet req.toWallet req.amountEth memo
          transactionId env.networkMode
      if dualRecords.length = 0 then
        (.serverError "Failed to create transaction records", e2)
      else
        match jsToWei req.amountEth with
        | .error m => (.serverError m, e2)
        | .ok amountWei =>
          match sendTransactionWithPrivateKey env req.fromWallet req.toWallet amountWei with
          | (.error m, es) => (.serverError m, e2 ++ es)
          | (.ok txHash, es) =>
            let e3 := e2 ++ es ++ dualRecords.map
                (fun r => Effect.recordUpdate r.transaction_id "submitted")
            (.submitted transactionId txHash dualRecords.length, e3)

/-- The single inbound record payload built by `POST /payment/faucet`. -/
def faucetRecordPayload (deployer toWallet amount transactionId netMode : String) :
    TxRecordPayload :=
  { transaction_id := transactionId
    wallet_address := toWallet
    from_address := deployer
    to_address := toWallet
    amount := amount
    currency_symbol := "ETH"
    transaction_type := "faucet"
    direction := "inbound"
    status := "pending"
    memo := "Faucet funding"
    network_mode := netMode }

/-- `POST /payment/faucet` from `app.js`: required fields, address
well-formedness, non-positive amount, 100 ETH ceiling, eligibility gate
(429 when already funded), record creation (aborting on failure), wei
conversion, contract-mediated transfer from the deployer, marking the
wallet funded, immediate `submitted` update.  Returns the response, the
updated funding-eligibility store and the effect trace. -/
def paymentFaucet (env : Env) (st : FundStore) (transactionId : String)
    (now : ℕ) (req : FaucetReq) : PayResp × FundStore × List Effect :=
  if req.toWallet = "" ∨ req.amountEth = "" then
    (.badRequest "toWallet and amountEth are required", st, [])
  else if ¬isAddress req.toWallet then
    (.badRequest "Invalid wallet address format", st, [])
  else if jsNumLe (parseFloat req.amountEth) 0 then
    (.badRequest "Amount must be greater than 0", st, [])
  else if jsNumGt (parseFloat req.amountEth) 100 then
    (.badRequest "Faucet amount cannot exceed 100 ETH", st, [])
  else if ¬isWalletEligibleForBonus st req.toWallet then
    (.tooManyRequests "Wallet has already received faucet funding", st, [])
  else
    let payload := faucetRecordPayload env.deployer req.toWallet req.amountEth
        transactionId env.networkMode
    let e1 : List Effect := [.recordCreate payload]
    if ¬env.faucetCreateOk then
      (.serverError "Failed to create transaction record", st, e1)
    else
      match jsToWei req.amountEth with
      | .error m => (.serverError m, st, e1)
      | .ok amountWei =>
        let e2 := e1 ++ [Effect.contractSend env.deployer req.toWallet amountWei]
        match env.contractSendResult with
        | .error m => (.serverError m, st, e2)
        | .ok txHash =>
          let st2 := markWalletFunded st req.toWallet now
          let e3 := e2 ++ [Effect.recordUpdate transactionId "submitted"]
          (.faucetSubmitted transactionId txHash, st2, e3)

/- ===== Settlement watcher ===== -/

/-- Chain transaction receipt, with the boolean success `status` field
the watcher inspects. -/
structure Receipt where
  status : Bool
  blockNumber : ℕ
deriving DecidableEq

/-- The poll loop of `waitForReceipt`: `chain i` is the receipt visible at
the `i`-th poll; one unit of fuel per remaining poll, then the timeout
error is thrown. -/
def waitForReceiptAux (chain : ℕ → Option Receipt) (i : ℕ) :
    ℕ → Except String Receipt
  | 0 => .error "Timeout waiting for transaction receipt"
  | fuel + 1 =>
      match chain i with
      | some r => .ok r
      | none => waitForReceiptAux chain (i + 1) fuel

/-- Number of poll iterations the `while (Date.now() - start < timeoutMs)`
loop performs when each poll is instantaneous: `ceil(timeoutMs / pollInterval)`. -/
def numPolls (timeoutMs pollInterval : ℕ) : ℕ :=
  (timeoutMs + pollInterval - 1) / pollInterval

/-- `waitForReceipt(txHash, timeoutMs, pollInterval)` from `app.js`
(defaults 120000 and 2000): polls until a receipt appears, throws the
timeout error when the window elapses with none. -/
def waitForReceipt (chain : ℕ → Option Receipt) (timeoutMs pollInterval : ℕ) :
    Except String Receipt :=
  waitForReceiptAux chain 0 (numPolls timeoutMs pollInterval)

/-- Terminal update written into an off-chain record by the detached
monitor. -/
structure StatusUpdate where
  status : String
  error_message : Option String
deriving DecidableEq

/-- The detached confirmation monitor of the payment endpoints: on a
receipt, `status = receipt.status ? completed : failed` with the
chain-revert message when reverted; on a thrown timeout, `failed` with
the thrown message. -/
def monitorSettlement (wr : Except String Receipt) : StatusUpdate :=
  match wr with
  | .ok receipt =>
      { status := if receipt.status then "completed" else "failed"
        error_message :=
          if receipt.status then none else some "Transaction failed on blockchain" }
  | .error msg => { status := "failed", error_message := some msg }

/- ===== Nonce acquisition under concurrency ===== -/

/-- Program counter of one in-flight `sendTransactionWithPrivateKey` call,
whose two chain suspension points are the nonce fetch
(`await getTransactionCount`) and the broadcast
(`await sendSignedTransaction`). -/
inductive SubmitPhase
  | start
  | gotNonce (n : ℕ)
  | done (nonce : ℕ) (accepted : Bool)
deriving DecidableEq

/-- Chain-side view of one sender account: its transaction count and the
broadcasts received so far as `(nonce, accepted)` pairs — the chain
accepts a broadcast only when its nonce equals the current count. -/
structure NonceChain where
  txCount : ℕ
  broadcasts : List (ℕ × Bool)
deriving DecidableEq

/-- One suspension-point step of a submission task.  There is no lock in
`sendTransactionWithPrivateKey` between the nonce fetch and the
broadcast, so steps of two tasks for the same sender may interleave
freely. -/
def stepSubmit (ch : NonceChain) : SubmitPhase → NonceChain × SubmitPhase
  | .start => (ch, .gotNonce ch.txCount)
  | .gotNonce n =>
      let ok := decide (n = ch.txCount)
      ({ txCount := if ok then ch.txCount + 1 else ch.txCount
         broadcasts := ch.broadcasts ++ [(n, ok)] }, .done n ok)
  | .done n ok => (ch, .done n ok)

/-- Run two concurrent submissions from the same sender under a schedule:
`true` steps the first task, `false` the second. -/
def runSched : List Bool → NonceChain → SubmitPhase → SubmitPhase →
    NonceChain × SubmitPhase × SubmitPhase
  | [], ch, a, b => (ch, a, b)
  | true :: rest, ch, a, b =>
      let s := stepSubmit ch a
      runSched rest s.1 s.2 b
  | false :: rest, ch, a, b =>
      let s := stepSubmit ch b
      runSched rest s.1 a s.2

/- ===== Wallet creation (`POST /wallet/create`) ===== -/

/-- Result of the backend user-to-wallet mapping call, embedded verbatim
into the response; `strings` flattens the string values it may carry. -/
structure MappingResult where
  success : Bool
  strings : List String
deriving DecidableEq

/-- JSON body returned by `POST /wallet/create` on success, field for
field as built in `app.js`. -/
structure CreateWalletResponse where
  success : Bool
  address : String
  isFundingAvailable : Bool
  mapping : MappingResult
  message : String
  stored_in_nodejs : Bool
deriving DecidableEq

/-- The field names of the success body of `POST /wallet/create`, in
construction order. -/
def createWalletResponseKeys : List String :=
  ["success", "address", "isFundingAvailable", "mapping", "message",
   "stored_in_nodejs"]

/-- String leaves of the response body: the address, the constant
message, and whatever strings the backend mapping result carried. -/
def CreateWalletResponse.stringLeaves (r : CreateWalletResponse) : List String :=
  [r.address, r.message] ++ r.mapping.strings

/-- Idealized model of `web3.eth.accounts.privateKeyToAccount` (external
web3 library): a 20-byte digest of the private key bytes rendered as a
42-character `0x` hex address. -/
def deriveAddress (privBytes : List ℕ) : String :=
  "0x" ++ hexOfBytes ((privBytes.take 20).map (fun b => (b * 7 + 13) % 256))

/-- `POST /wallet/create` from `app.js`: 400 when `userId` is missing
(`none` here); otherwise generates the key from 32 fresh random bytes,
derives the address, checks eligibility, encrypts the key, stores
`{encryptedKey, address, createdAt, userName}` under `userId`, calls the
backend mapping (best-effort), and returns the six-field body. -/
def walletCreate (encKey : ℕ) (userId userName : String) (randBytes : List ℕ)
    (iv now : ℕ) (walletStore : List (String × WalletRecord))
    (fundedStore : FundStore) (mappingResult : MappingResult) :
    Option (CreateWalletResponse × List (String × WalletRecord)) :=
  if userId = "" then none
  else
    let privateKey := "0x" ++ hexOfBytes randBytes
    let address := deriveAddress randBytes
    let isFundingAvailable := isWalletEligibleForBonus fundedStore address
    let record : WalletRecord :=
      { encryptedKey := encrypt encKey iv (strBytes privateKey)
        address := address
        createdAt := now
        userName := if userName = "" then "User " ++ userId else userName }
    let store2 := objSet walletStore userId record
    some ({ success := true
            address := address
            isFundingAvailable := isFundingAvailable
            mapping := mappingResult
            message := "Wallet created successfully"
            stored_in_nodejs := true }, store2)

/- ===== Concrete fixtures for witnesses and counterexamples ===== -/

/-- A well-formed test address (lower case). -/
def addrA : String := "0xaaaaaaaaaaaaaaaaaaaaaaaaaaaaaaaaaaaaaaaa"

/-- The same test address in upper-case hex, as a stored record may
carry it. -/
def addrAUpper : String := "0xAAAAAAAAAAAAAAAAAAAAAAAAAAAAAAAAAAAAAAAA"

/-- A second well-formed test address. -/
def addrB : String := "0xbbbbbbbbbbbbbbbbbbbbbbbbbbbbbbbbbbbbbbbb"

/-- A third well-formed test address (the deployer in fixtures). -/
def addrC : String := "0xcccccccccccccccccccccccccccccccccccccccc"

/-- A stored wallet record for `addrA` (upper-case on disk), holding the
encryption of the 3-byte test key under process key 7 and iv 3. -/
def wdA : WalletRecord :=
  { encryptedKey := encrypt 7 3 [1, 2, 3]
    address := addrAUpper
    createdAt := 0
    userName := "A" }

/-- A stored wallet record for `addrB`. -/
def wdB : WalletRecord :=
  { encryptedKey := encrypt 7 4 [9, 9]
    address := addrB
    createdAt := 0
    userName := "B" }

/-- A concrete environment: two resolvable emails, 10 ETH balances, all
collaborator calls succeeding, one custodied wallet. -/
def testEnv : Env :=
  { emailWallet := fun e =>
      if e = "a@x.com" then some addrA
      else if e = "b@x.com" then some addrB
      else none
    balanceWei := fun _ => 10 ^ 19
    senderCreateOk := true
    receiverCreateOk := true
    faucetCreateOk := true
    walletStore := [("u1", wdA)]
    encKey := 7
    broadcastResult := .ok "0xfeedbeef"
    contractSendResult := .ok "0xfaucethash"
    networkMode := "local"
    deployer := addrC }

/-- `testEnv` with the sender-side record creation failing. -/
def testEnvSenderFail : Env := { testEnv with senderCreateOk := false }

/-- `testEnv` with both record creations failing. -/
def testEnvBothFail : Env :=
  { testEnv with senderCreateOk := false, receiverCreateOk := false }

/-- `testEnv` with a poor sender: balance 0.1 ETH. -/
def testEnvPoor : Env := { testEnv with balanceWei := fun _ => 10 ^ 17 }

/- ========================= Theorems ========================= -/

lemma xorStream_involution (key iv : ℕ) : ∀ (i : ℕ) (bs : List ℕ),
    xorStream key iv i (xorStream key iv i bs) = bs := by
  intro i bs
  induction bs generalizing i with
  | nil => rfl
  | cons b rest ih =>
      simp only [xorStream, ih]
      congr 1
      show b ^^^ gcmKeystream key iv i ^^^ gcmKeystream key iv i = b
      rw [Nat.xor_assoc, Nat.xor_self, Nat.xor_zero]

lemma gcmBody_involution (key iv : ℕ) (bs : List ℕ) :
    gcmBody key iv (gcmBody key iv bs) = bs :=
  xorStream_involution key iv 0 bs

lemma encodeBytes_inj : ∀ (a b : List ℕ), (∀ x ∈ a, x < 256) →
    (∀ x ∈ b, x < 256) → encodeBytes a = encodeBytes b → a = b := by
  intro a
  induction a with
  | nil =>
      intro b _ hb h
      cases b with
      | nil => rfl
      | cons y ys =>
          exfalso
          simp only [encodeBytes] at h
          omega
  | cons x xs ih =>
      intro b ha hb h
      cases b with
      | nil =>
          exfalso
          simp only [encodeBytes] at h
          omega
      | cons y ys =>
          simp only [encodeBytes] at h
          have hx : x < 256 := ha x (by simp)
          have hy : y < 256 := hb y (by simp)
          have hxy : x = y ∧ encodeBytes xs = encodeBytes ys := by
            constructor <;> omega
          rw [hxy.1, ih ys (fun z hz => ha z (by simp [hz]))
            (fun z hz => hb z (by simp [hz])) hxy.2]

lemma gcmTag_inj {k1 i1 k2 i2 : ℕ} {c1 c2 : List ℕ}
    (h : gcmTag k1 i1 c1 = gcmTag k2 i2 c2) :
    k1 = k2 ∧ i1 = i2 ∧ encodeBytes c1 = encodeBytes c2 := by
  unfold gcmTag at h
  have h1 := Nat.pair_eq_pair.mp h
  have h2 := Nat.pair_eq_pair.mp h1.2
  exact ⟨h1.1, h2.1, h2.2⟩

lemma gcmKeystream_lt (key iv i : ℕ) : gcmKeystream key iv i < 256 :=
  Nat.mod_lt _ (by omega)

lemma xorStream_bytes (key iv : ℕ) : ∀ (i : ℕ) (bs : List ℕ),
    (∀ x ∈ bs, x < 256) → ∀ x ∈ xorStream key iv i bs, x < 256 := by
  intro i bs
  induction bs generalizing i with
  | nil => intro _ x hx; simp [xorStream] at hx
  | cons b rest ih =>
      intro hb x hx
      simp only [xorStream, List.mem_cons] at hx
      rcases hx with hx | hx
      · subst hx
        have h1 : b < 2 ^ 8 := hb b (by simp)
        have h2 : gcmKeystream key iv i < 2 ^ 8 := gcmKeystream_lt key iv i
        exact Nat.xor_lt_two_pow h1 h2
      · exact ih (i + 1) (fun z hz => hb z (by simp [hz])) x hx

lemma gcmBody_bytes (key iv : ℕ) (bs : List ℕ) (h : ∀ x ∈ bs, x < 256) :
    ∀ x ∈ gcmBody key iv bs, x < 256 :=
  xorStream_bytes key iv 0 bs h

lemma decrypt_encrypt (key iv : ℕ) (t : List ℕ) :
    decrypt key (encrypt key iv t) = .ok t := by
  simp [decrypt, encrypt, gcmBody_involution]

/-- Claim C10: for every plaintext, decrypting the output of `encrypt`
under the same process-wide key recovers the plaintext exactly, whatever
fresh random iv the (randomized) `encrypt` call drew. -/
theorem claim_C10_encrypt_decrypt_roundtrip (key iv : ℕ) (t : List ℕ) :
    decrypt key (encrypt key iv t) = .ok t :=
  decrypt_encrypt key iv t

/-- Claim C7: decryption of a stored key record fails closed.  Tampering
with the ciphertext (within the byte alphabet), tampering with the
authentication tag, or decrypting under a different symmetric key all
raise the integrity error and never return a plaintext, and a decryption
returns a plaintext only when the recomputed authentication tag matches
the stored one. -/
theorem claim_C7_decrypt_fails_closed :
    (∀ key iv t c2, (∀ x ∈ t, x < 256) → (∀ x ∈ c2, x < 256) →
      c2 ≠ (encrypt key iv t).content →
      decrypt key { encrypt key iv t with content := c2 } =
        .error .authTagMismatch) ∧
    (∀ key iv t tag2, tag2 ≠ (encrypt key iv t).tag →
      decrypt key { encrypt key iv t with tag := tag2 } =
        .error .authTagMismatch) ∧
    (∀ key key2 iv t, key2 ≠ key →
      decrypt key2 (encrypt key iv t) = .error .authTagMismatch) ∧
    (∀ key e p, decrypt key e = .ok p →
      gcmTag key e.iv e.content = e.tag) := by
  refine ⟨?_, ?_, ?_, ?_⟩
  · intro key iv t c2 ht hc2 hne
    rw [decrypt]
    rw [if_neg]
    intro h
    simp only [encrypt] at h ⊢
    have hinj := gcmTag_inj h
    exact hne (encodeBytes_inj c2 (gcmBody key iv t) hc2
      (gcmBody_bytes key iv t ht) hinj.2.2)
  · intro key iv t tag2 hne
    rw [decrypt]
    rw [if_neg]
    intro h
    simp only [encrypt] at h hne
    exact hne h.symm
  · intro key key2 iv t hne
    rw [decrypt]
    rw [if_neg]
    intro h
    simp only [encrypt] at h
    exact hne (gcmTag_inj h).1
  · intro key e p h
    rw [decrypt] at h
    by_cases hc : gcmTag key e.iv e.content = e.tag
    · exact hc
    · rw [if_neg hc] at h
      exact absurd h (by simp)

/-- Witness for C7 at concrete inputs: an emptied ciphertext, a zeroed
tag, and the wrong key each fail closed on a concrete record. -/
theorem claim_C7_witness :
    decrypt 1 { encrypt 1 2 [3] with content := [] } = .error .authTagMismatch ∧
    decrypt 1 { encrypt 1 2 [3] with tag := 0 } = .error .authTagMismatch ∧
    decrypt 0 (encrypt 1 2 [3]) = .error .authTagMismatch :=
  ⟨claim_C7_decrypt_fails_closed.1 1 2 [3] [] (by decide) (by decide) (by decide),
   claim_C7_decrypt_fails_closed.2.1 1 2 [3] 0 (by decide),
   claim_C7_decrypt_fails_closed.2.2.1 1 0 2 [3] (by decide)⟩

lemma find?_append_of_none {α : Type} (p : α → Bool) (pre rest : List α)
    (h : ∀ e ∈ pre, p e = false) :
    (pre ++ rest).find? p = rest.find? p := by
  induction pre with
  | nil => rfl
  | cons x xs ih =>
      rw [List.cons_append, List.find?_cons, h x (by simp)]
      exact ih (fun e he => h e (by simp [he]))

/-- Claim C9: `getPrivateKeyForWallet` scans the stored wallet records in
order, compares addresses case-insensitively, returns the decrypted key
of the first matching record, and throws the not-found error when no
stored address matches. -/
theorem claim_C9_private_key_resolution :
    (∀ key store walletAddress,
      (∀ e ∈ store, jsToLowerCase (WalletRecord.address e.2) ≠
        jsToLowerCase walletAddress) →
      getPrivateKeyForWallet key store walletAddress =
        .error ("Private key not found for wallet: " ++ walletAddress)) ∧
    (∀ key iv pkBytes (pre post : List (String × WalletRecord)) uid wd
        walletAddress,
      (∀ e ∈ pre, jsToLowerCase (WalletRecord.address e.2) ≠
        jsToLowerCase walletAddress) →
      jsToLowerCase wd.address = jsToLowerCase walletAddress →
      wd.encryptedKey = encrypt key iv pkBytes →
      getPrivateKeyForWallet key (pre ++ (uid, wd) :: post) walletAddress =
        .ok pkBytes) := by
  constructor
  · intro key store walletAddress h
    rw [getPrivateKeyForWallet]
    rw [List.find?_eq_none.mpr (by simpa using h)]
  · intro key iv pkBytes pre post uid wd walletAddress hpre hmatch henc
    rw [getPrivateKeyForWallet]
    rw [find?_append_of_none _ pre _ (by simpa using hpre)]
    rw [List.find?_cons]
    have hd : decide (jsToLowerCase (uid, wd).2.address =
        jsToLowerCase walletAddress) = true := by simpa using hmatch
    rw [hd]
    simp [henc, decrypt_encrypt]

/-- Witness for C9: in a two-record store the second record matches the
queried address up to case and its key decrypts; a store holding only the
other record reports not-found. -/
theorem claim_C9_witness :
    getPrivateKeyForWallet 7 [("u0", wdB), ("u1", wdA)] addrA = .ok [1, 2, 3] ∧
    getPrivateKeyForWallet 7 [("u0", wdB)] addrA =
      .error ("Private key not found for wallet: " ++ addrA) :=
  ⟨claim_C9_private_key_resolution.2 7 3 [1, 2, 3] [("u0", wdB)] [] "u1" wdA
      addrA (by decide) (by decide) rfl,
   claim_C9_private_key_resolution.1 7 [("u0", wdB)] addrA (by decide)⟩

lemma objLookup_objSet_self {α : Type} (st : List (String × α)) (k : String)
    (v : α) : objLookup (objSet st k v) k = some v := by
  induction st with
  | nil => simp [objLookup, objSet, List.find?]
  | cons e st ih =>
      by_cases hk : e.1 = k
      · simp [objSet, objLookup, List.find?_cons, hk]
      · rw [objSet, List.find?_cons]
        have hd : decide (e.1 = k) = false := by simpa using hk
        rw [hd]
        by_cases hs : (st.find? (fun x => x.1 = k)).isSome
        · rw [if_pos hs]
          rw [objLookup, List.map_cons, List.find?_cons]
          have he : decide ((if e.1 = k then (k, v) else e).1 = k) = false := by
            rw [if_neg hk]; simpa using hk
          rw [he]
          have := ih
          rw [objSet, if_pos hs] at this
          rw [objLookup] at this
          exact this
        · rw [if_neg hs]
          rw [List.cons_append, objLookup, List.find?_cons, hd]
          have := ih
          rw [objSet, if_neg hs] at this
          rw [objLookup] at this
          exact this

/-- Claim C4: the funding-eligibility store.  An address is
bootstrap-eligible iff no record exists for it or its record has
`funded = false`; a faucet request for an ineligible address is rejected
with 429 before any record creation or chain call, leaving the store
unchanged; after a successful faucet submission the recipient is marked
funded and a subsequent bonus-eligibility query returns not eligible. -/
theorem claim_C4_funding_eligibility :
    (∀ (st : FundStore) a, isWalletEligibleForBonus st a = true ↔
      (objLookup st a = none ∨
        ∃ r, objLookup st a = some r ∧ r.funded = false)) ∧
    (∀ env st tid now (req : FaucetReq),
      req.toWallet ≠ "" → req.amountEth ≠ "" →
      isAddress req.toWallet = true →
      jsNumLe (parseFloat req.amountEth) 0 = false →
      jsNumGt (parseFloat req.amountEth) 100 = false →
      isWalletEligibleForBonus st req.toWallet = false →
      paymentFaucet env st tid now req =
        (.tooManyRequests "Wallet has already received faucet funding",
          st, [])) ∧
    (∀ env st tid now (req : FaucetReq) w txh,
      req.toWallet ≠ "" → req.amountEth ≠ "" →
      isAddress req.toWallet = true →
      jsNumLe (parseFloat req.amountEth) 0 = false →
      jsNumGt (parseFloat req.amountEth) 100 = false →
      isWalletEligibleForBonus st req.toWallet = true →
      env.faucetCreateOk = true →
      jsToWei req.amountEth = .ok w →
      env.contractSendResult = .ok txh →
      paymentFaucet env st tid now req =
        (.faucetSubmitted tid txh, markWalletFunded st req.toWallet now,
         [.recordCreate (faucetRecordPayload env.deployer req.toWallet
            req.amountEth tid env.networkMode),
          .contractSend env.deployer req.toWallet w,
          .recordUpdate tid "submitted"]) ∧
      isWalletEligibleForBonus (markWalletFunded st req.toWallet now)
        req.toWallet = false ∧
      bonusEligibleEndpoint (markWalletFunded st req.toWallet now)
        req.toWallet = .ok false) := by
  refine ⟨?_, ?_, ?_⟩
  · intro st a
    rw [isWalletEligibleForBonus]
    cases h : objLookup st a with
    | none => simp
    | some r =>
        simp only [Bool.not_eq_true']
        constructor
        · intro hf
          exact Or.inr ⟨r, rfl, hf⟩
        · rintro (h2 | ⟨r2, hr2, hf2⟩)
          · exact absurd h2 (by simp)
          · rw [Option.some_inj.mp hr2.symm] at hf2
            exact hf2
  · intro env st tid now req h1 h2 h3 h4 h5 h6
    rw [paymentFaucet]
    rw [if_neg (by simp [h1, h2]), if_neg (by simp [h3]), if_neg (by simp [h4]),
      if_neg (by simp [h5]), if_pos (by simp [h6])]
  · intro env st tid now req w txh h1 h2 h3 h4 h5 h6 h7 h8 h9
    have hmark : isWalletEligibleForBonus
        (markWalletFunded st req.toWallet now) req.toWallet = false := by
      rw [isWalletEligibleForBonus, markWalletFunded, objLookup_objSet_self]
      rfl
    refine ⟨?_, hmark, ?_⟩
    · rw [paymentFaucet]
      rw [if_neg (by simp [h1, h2]), if_neg (by simp [h3]),
        if_neg (by simp [h4]), if_neg (by simp [h5]), if_neg (by simp [h6]),
        if_neg (by simp [h7]), h8, h9]
      rfl
    · rw [bonusEligibleEndpoint, if_pos (by simp [h3]), hmark]

/-- Witness for C4: a never-funded address is eligible, an
already-funded store yields the 429 path untouched, and a successful
faucet run on the empty store leaves the address ineligible. -/
theorem claim_C4_witness :
    (isWalletEligibleForBonus [] addrA = true ↔
      (objLookup ([] : FundStore) addrA = none ∨
        ∃ r, objLookup ([] : FundStore) addrA = some r ∧ r.funded = false)) ∧
    paymentFaucet testEnv [(addrA, ⟨true, 0⟩)] "faucet_1" 5
        ⟨addrA, "1.0"⟩ =
      (.tooManyRequests "Wallet has already received faucet funding",
        [(addrA, ⟨true, 0⟩)], []) ∧
    isWalletEligibleForBonus
      (markWalletFunded [] addrA 5) addrA = false ∧
    bonusEligibleEndpoint (markWalletFunded [] addrA 5) addrA = .ok false :=
  ⟨claim_C4_funding_eligibility.1 [] addrA,
   claim_C4_funding_eligibility.2.1 testEnv [(addrA, ⟨true, 0⟩)] "faucet_1" 5
     ⟨addrA, "1.0"⟩ (by decide) (by decide) (by decide) (by decide)
     (by decide) (by decide),
   (claim_C4_funding_eligibility.2.2 testEnv [] "faucet_1" 5 ⟨addrA, "1.0"⟩
     1000000000000000000 "0xfaucethash" (by decide) (by decide) (by decide)
     (by decide) (by decide) (by decide) rfl rfl rfl).2.1,
   (claim_C4_funding_eligibility.2.2 testEnv [] "faucet_1" 5 ⟨addrA, "1.0"⟩
     1000000000000000000 "0xfaucethash" (by decide) (by decide) (by decide)
     (by decide) (by decide) (by decide) rfl rfl rfl).2.2⟩

lemma waitForReceiptAux_none (chain : ℕ → Option Receipt) :
    ∀ (fuel i : ℕ), (∀ j, j < fuel → chain (i + j) = none) →
    waitForReceiptAux chain i fuel =
      .error "Timeout waiting for transaction receipt" := by
  intro fuel
  induction fuel with
  | zero => intro i _; rfl
  | succ f ih =>
      intro i h
      rw [waitForReceiptAux]
      have h0 : chain i = none := by simpa using h 0 (by omega)
      rw [h0]
      exact ih (i + 1) (fun j hj => by
        have := h (j + 1) (by omega)
        rwa [show i + (j + 1) = i + 1 + j by omega] at this)

lemma waitForReceiptAux_found (chain : ℕ → Option Receipt) (r : Receipt) :
    ∀ (fuel i k : ℕ), k < fuel → chain (i + k) = some r →
    (∀ j, j < k → chain (i + j) = none) →
    waitForReceiptAux chain i fuel = .ok r := by
  intro fuel
  induction fuel with
  | zero => intro i k hk; omega
  | succ f ih =>
      intro i k hk hf hnone
      rw [waitForReceiptAux]
      cases k with
      | zero =>
          simp only [Nat.add_zero] at hf
          rw [hf]
      | succ k2 =>
          have h0 : chain i = none := by simpa using hnone 0 (by omega)
          rw [h0]
          exact ih (i + 1) k2 (by omega)
            (by rwa [show i + 1 + k2 = i + (k2 + 1) by omega])
            (fun j hj => by
              have := hnone (j + 1) (by omega)
              rwa [show i + (j + 1) = i + 1 + j by omega] at this)

/-- Claim C6: in the settlement watcher with the configured window
(120000 ms, 2000 ms polls), a receipt whose status indicates on-chain
failure is returned normally (not an error) and yields the terminal record
status `failed` with the chain-reverted message; only the absence of any
receipt within the window throws the timeout error, which yields `failed`
with the timeout message; the two messages are distinct. -/
theorem claim_C6_settlement_watcher :
    (∀ (chain : ℕ → Option Receipt) k r, k < numPolls 120000 2000 →
      chain k = some r → (∀ j, j < k → chain j = none) → r.status = false →
      waitForReceipt chain 120000 2000 = .ok r ∧
      monitorSettlement (waitForReceipt chain 120000 2000) =
        { status := "failed",
          error_message := some "Transaction failed on blockchain" }) ∧
    (∀ (chain : ℕ → Option Receipt),
      (∀ j, j < numPolls 120000 2000 → chain j = none) →
      waitForReceipt chain 120000 2000 =
        .error "Timeout waiting for transaction receipt" ∧
      monitorSettlement (waitForReceipt chain 120000 2000) =
        { status := "failed",
          error_message := some "Timeout waiting for transaction receipt" }) ∧
    ("Transaction failed on blockchain" ≠
      "Timeout waiting for transaction receipt") := by
  refine ⟨?_, ?_, by decide⟩
  · intro chain k r hk hfound hnone hst
    have hok : waitForReceipt chain 120000 2000 = .ok r :=
      waitForReceiptAux_found chain r (numPolls 120000 2000) 0 k hk
        (by simpa using hfound) (fun j hj => by simpa using hnone j hj)
    refine ⟨hok, ?_⟩
    rw [hok, monitorSettlement, hst]
    rfl
  · intro chain hnone
    have herr : waitForReceipt chain 120000 2000 =
        .error "Timeout waiting for transaction receipt" :=
      waitForReceiptAux_none chain (numPolls 120000 2000) 0
        (fun j hj => by simpa using hnone j hj)
    exact ⟨herr, by rw [herr]; rfl⟩

/-- Witness for C6: a chain that reverts at the first poll yields the
reverted update, and a chain that never answers yields the timeout
update. -/
theorem claim_C6_witness :
    monitorSettlement
        (waitForReceipt (fun _ => some ⟨false, 4⟩) 120000 2000) =
      { status := "failed",
        error_message := some "Transaction failed on blockchain" } ∧
    monitorSettlement (waitForReceipt (fun _ => none) 120000 2000) =
      { status := "failed",
        error_message := some "Timeout waiting for transaction receipt" } :=
  ⟨(claim_C6_settlement_watcher.1 (fun _ => some ⟨false, 4⟩) 0 ⟨false, 4⟩
      (by decide) rfl (fun j hj => absurd hj (by omega)) rfl).2,
   (claim_C6_settlement_watcher.2.1 (fun _ => none) (fun _ _ => rfl)).2⟩

/-- Claim C5 (divergence exhibit): `sendTransactionWithPrivateKey` takes
no per-sender lock between its nonce fetch and its broadcast, so the
interleaving that runs both nonce fetches before either broadcast makes
both transactions carry the same sequence number and the chain reject the
second one, while the fully serialized schedule yields strictly
increasing accepted nonces. -/
theorem claim_C5_nonce_not_serialized :
    (runSched [true, false, true, false] ⟨5, []⟩ .start .start).1.broadcasts =
      [(5, true), (5, false)] ∧
    (runSched [true, true, false, false] ⟨5, []⟩ .start .start).1.broadcasts =
      [(5, true), (6, true)] := by
  constructor <;> rfl

/-- Claim C1 (amended): a payment request (email-to-email or
wallet-to-wallet) whose `amountEth` parses to a non-positive number is
rejected synchronously with a 400 validation error before any off-chain
record creation and before any chain call (the effect trace is empty).
A NON-numeric `amountEth` (`parseFloat` NaN) is NOT rejected by
validation — see the counterexample — because every JS comparison on NaN
is false. -/
theorem claim_C1_nonpositive_amount_rejected :
    (∀ env tid (req : EmailReq) n s,
      parseFloat req.amountEth = .dec n s → n ≤ 0 →
      (paymentEmailToEmail env tid req).2 = [] ∧
      (paymentEmailToEmail env tid req).1.isValidationError = true) ∧
    (∀ env tid (req : WalletReq) n s,
      parseFloat req.amountEth = .dec n s → n ≤ 0 →
      (paymentWalletToWallet env tid req).2 = [] ∧
      (paymentWalletToWallet env tid req).1.isValidationError = true) := by
  constructor
  · intro env tid req n s hq hn
    have hle : jsNumLe (parseFloat req.amountEth) 0 = true := by
      rw [hq, jsNumLe]
      simpa using hn
    rw [paymentEmailToEmail]
    by_cases h1 : req.fromEmail = "" ∨ req.toEmail = "" ∨ req.amountEth = ""
    · rw [if_pos h1]; exact ⟨rfl, rfl⟩
    · rw [if_neg h1]
      by_cases h2 : req.fromEmail = req.toEmail
      · rw [if_pos h2]; exact ⟨rfl, rfl⟩
      · rw [if_neg h2, if_pos hle]; exact ⟨rfl, rfl⟩
  · intro env tid req n s hq hn
    have hle : jsNumLe (parseFloat req.amountEth) 0 = true := by
      rw [hq, jsNumLe]
      simpa using hn
    rw [paymentWalletToWallet]
    by_cases h1 : req.fromWallet = "" ∨ req.toWallet = "" ∨ req.amountEth = ""
    · rw [if_pos h1]; exact ⟨rfl, rfl⟩
    · rw [if_neg h1]
      by_cases h2 : ¬(isAddress req.fromWallet ∧ isAddress req.toWallet)
      · rw [if_pos h2]; exact ⟨rfl, rfl⟩
      · rw [if_neg h2]
        by_cases h3 : jsToLowerCase req.fromWallet = jsToLowerCase req.toWallet
        · rw [if_pos h3]; exact ⟨rfl, rfl⟩
        · rw [if_neg h3, if_pos hle]; exact ⟨rfl, rfl⟩

/-- Witness for C1: `amountEth = "0"` on both endpoints is rejected with
an empty effect trace. -/
theorem claim_C1_witness :
    ((paymentEmailToEmail testEnv "email_1"
        ⟨"a@x.com", "b@x.com", "0", ""⟩).2 = [] ∧
      (paymentEmailToEmail testEnv "email_1"
        ⟨"a@x.com", "b@x.com", "0", ""⟩).1.isValidationError = true) ∧
    ((paymentWalletToWallet testEnv "wallet_1"
        ⟨addrA, addrB, "0", ""⟩).2 = [] ∧
      (paymentWalletToWallet testEnv "wallet_1"
        ⟨addrA, addrB, "0", ""⟩).1.isValidationError = true) :=
  ⟨claim_C1_nonpositive_amount_rejected.1 testEnv "email_1"
     ⟨"a@x.com", "b@x.com", "0", ""⟩ 0 0 rfl (by decide),
   claim_C1_nonpositive_amount_rejected.2 testEnv "wallet_1"
     ⟨addrA, addrB, "0", ""⟩ 0 0 rfl (by decide)⟩

/-- Counterexample to C1 as stated: the non-numeric amount `"abc"`
(`parseFloat` NaN) passes every validation check, so the email-to-email
endpoint resolves identities, queries the chain balance and creates both
off-chain records before failing at wei conversion with a 500 — it is not
rejected with a validation error and both record-creation and chain-call
effects occur. -/
theorem claim_C1_counterexample :
    (paymentEmailToEmail testEnv "email_1"
        ⟨"a@x.com", "b@x.com", "abc", ""⟩).2.any Effect.isRecordCreate = true ∧
    (paymentEmailToEmail testEnv "email_1"
        ⟨"a@x.com", "b@x.com", "abc", ""⟩).2.any Effect.isChainCall = true ∧
    (paymentEmailToEmail testEnv "email_1"
        ⟨"a@x.com", "b@x.com", "abc", ""⟩).1.isValidationError = false := by
  refine ⟨?_, ?_, ?_⟩ <;> rfl

/-- Claim C3: when the resolved sender's live chain balance is below the
requested amount, both payment endpoints return the synchronous 400
`Insufficient balance` error; on the email endpoint this happens after
both identity resolutions and the balance query, and in both cases before
any off-chain record creation or broadcast (the trace holds exactly the
lookups and the balance query). -/
theorem claim_C3_insufficient_balance_aborts :
    (∀ env tid (req : EmailReq) fW tW,
      req.fromEmail ≠ "" → req.toEmail ≠ "" → req.amountEth ≠ "" →
      req.fromEmail ≠ req.toEmail →
      jsNumLe (parseFloat req.amountEth) 0 = false →
      jsNumGt (parseFloat req.amountEth) 1000 = false →
      env.emailWallet req.fromEmail = some fW →
      env.emailWallet req.toEmail = some tW →
      isAddress fW = true → isAddress tW = true →
      jsToLowerCase fW ≠ jsToLowerCase tW →
      jsBalLt (env.balanceWei fW) (parseFloat req.amountEth) = true →
      paymentEmailToEmail env tid req =
        (.badRequest "Insufficient balance",
         [.backendLookup req.fromEmail, .backendLookup req.toEmail,
          .chainGetBalance fW]) ∧
      (paymentEmailToEmail env tid req).2.any Effect.isRecordCreate = false ∧
      (paymentEmailToEmail env tid req).2.any Effect.isBroadcast = false) ∧
    (∀ env tid (req : WalletReq),
      req.fromWallet ≠ "" → req.toWallet ≠ "" → req.amountEth ≠ "" →
      isAddress req.fromWallet = true → isAddress req.toWallet = true →
      jsToLowerCase req.fromWallet ≠ jsToLowerCase req.toWallet →
      jsNumLe (parseFloat req.amountEth) 0 = false →
      jsNumGt (parseFloat req.amountEth) 1000 = false →
      jsBalLt (env.balanceWei req.fromWallet) (parseFloat req.amountEth) =
        true →
      paymentWalletToWallet env tid req =
        (.badRequest "Insufficient balance",
         [.chainGetBalance req.fromWallet]) ∧
      (paymentWalletToWallet env tid req).2.any Effect.isRecordCreate =
        false ∧
      (paymentWalletToWallet env tid req).2.any Effect.isBroadcast =
        false) := by
  constructor
  · intro env tid req fW tW hf ht ha hne h4 h5 hfw htw haddr1 haddr2 hlow hbal
    have hmain : paymentEmailToEmail env tid req =
        (.badRequest "Insufficient balance",
         [.backendLookup req.fromEmail, .backendLookup req.toEmail,
          .chainGetBalance fW]) := by
      simp [paymentEmailToEmail, hf, ht, ha, hne, h4, h5, hfw, htw, haddr1,
        haddr2, hlow, hbal]
    exact ⟨hmain, by rw [hmain]; rfl, by rw [hmain]; rfl⟩
  · intro env tid req hf ht ha haddr1 haddr2 hlow h4 h5 hbal
    have hmain : paymentWalletToWallet env tid req =
        (.badRequest "Insufficient balance",
         [.chainGetBalance req.fromWallet]) := by
      simp [paymentWalletToWallet, hf, ht, ha, haddr1, haddr2, hlow, h4, h5,
        hbal]
    exact ⟨hmain, by rw [hmain]; rfl, by rw [hmain]; rfl⟩

/-- Witness for C3: with a sender balance of 0.1 ETH and a request of
1.0 ETH, both endpoints return the synchronous 400 with no record
creation and no broadcast. -/
theorem claim_C3_witness :
    paymentEmailToEmail testEnvPoor "email_1"
        ⟨"a@x.com", "b@x.com", "1.0", ""⟩ =
      (.badRequest "Insufficient balance",
       [.backendLookup "a@x.com", .backendLookup "b@x.com",
        .chainGetBalance addrA]) ∧
    paymentWalletToWallet testEnvPoor "wallet_1" ⟨addrA, addrB, "1.0", ""⟩ =
      (.badRequest "Insufficient balance", [.chainGetBalance addrA]) :=
  ⟨(claim_C3_insufficient_balance_aborts.1 testEnvPoor "email_1"
      ⟨"a@x.com", "b@x.com", "1.0", ""⟩ addrA addrB (by decide) (by decide)
      (by decide) (by decide) (by decide) (by decide) rfl rfl (by decide)
      (by decide) (by decide) (by decide)).1,
   (claim_C3_insufficient_balance_aborts.2 testEnvPoor "wallet_1"
      ⟨addrA, addrB, "1.0", ""⟩ (by decide) (by decide) (by decide)
      (by decide) (by decide) (by decide) (by decide) (by decide)
      (by decide)).1⟩

/-- Claim C2 (amended): record creation is best-effort only while at
least one of the two off-chain records is created: a valid email payment
whose sender-side creation fails still broadcasts and reports the shorter
result list (`records_created = 1`); but when BOTH creations fail the
handler throws `Failed to create transaction records` and returns a 500
WITHOUT attempting the chain broadcast — see the counterexample. -/
theorem claim_C2_record_creation_best_effort :
    ∀ env tid (req : EmailReq) fW tW w pk txh,
      req.fromEmail ≠ "" → req.toEmail ≠ "" → req.amountEth ≠ "" →
      req.fromEmail ≠ req.toEmail →
      jsNumLe (parseFloat req.amountEth) 0 = false →
      jsNumGt (parseFloat req.amountEth) 1000 = false →
      env.emailWallet req.fromEmail = some fW →
      env.emailWallet req.toEmail = some tW →
      isAddress fW = true → isAddress tW = true →
      jsToLowerCase fW ≠ jsToLowerCase tW →
      jsBalLt (env.balanceWei fW) (parseFloat req.amountEth) = false →
      jsToWei req.amountEth = .ok w →
      getPrivateKeyForWallet env.encKey env.walletStore fW = .ok pk →
      env.broadcastResult = .ok txh →
      ((env.senderCreateOk = false → env.receiverCreateOk = true →
        (paymentEmailToEmail env tid req).1 = .submitted tid txh 1 ∧
        (paymentEmailToEmail env tid req).2.any Effect.isBroadcast = true) ∧
       (env.senderCreateOk = false → env.receiverCreateOk = false →
        (paymentEmailToEmail env tid req).1 =
          .serverError "Failed to create transaction records" ∧
        (paymentEmailToEmail env tid req).2.any Effect.isBroadcast =
          false)) := by
  intro env tid req fW tW w pk txh hf ht ha hne h4 h5 hfw htw haddr1 haddr2
    hlow hbal hwei hkey hbc
  constructor
  · intro hs hr
    constructor <;>
      simp [paymentEmailToEmail, hf, ht, ha, hne, h4, h5, hfw, htw, haddr1,
        haddr2, hlow, hbal, hs, hr, hwei, createDualTransactionRecords,
        sendTransactionWithPrivateKey, hkey, hbc, Effect.isBroadcast]
  · intro hs hr
    constructor <;>
      simp [paymentEmailToEmail, hf, ht, ha, hne, h4, h5, hfw, htw, haddr1,
        haddr2, hlow, hbal, hs, hr, createDualTransactionRecords,
        Effect.isBroadcast]

/-- Witness for C2: with the sender-side record creation failing and the
receiver-side succeeding, the concrete email payment still broadcasts and
reports a single created record; with both failing it aborts without a
broadcast. -/
theorem claim_C2_witness :
    ((paymentEmailToEmail testEnvSenderFail "email_2"
        ⟨"a@x.com", "b@x.com", "1.0", ""⟩).1 =
      .submitted "email_2" "0xfeedbeef" 1 ∧
     (paymentEmailToEmail testEnvSenderFail "email_2"
        ⟨"a@x.com", "b@x.com", "1.0", ""⟩).2.any Effect.isBroadcast =
      true) ∧
    ((paymentEmailToEmail testEnvBothFail "email_2"
        ⟨"a@x.com", "b@x.com", "1.0", ""⟩).1 =
      .serverError "Failed to create transaction records" ∧
     (paymentEmailToEmail testEnvBothFail "email_2"
        ⟨"a@x.com", "b@x.com", "1.0", ""⟩).2.any Effect.isBroadcast =
      false) :=
  ⟨(claim_C2_record_creation_best_effort testEnvSenderFail "email_2"
      ⟨"a@x.com", "b@x.com", "1.0", ""⟩ addrA addrB 1000000000000000000
      [1, 2, 3] "0xfeedbeef" (by decide) (by decide) (by decide) (by decide)
      (by decide) (by decide) rfl rfl (by decide) (by decide) (by decide)
      (by decide) rfl rfl rfl).1 rfl rfl,
   (claim_C2_record_creation_best_effort testEnvBothFail "email_2"
      ⟨"a@x.com", "b@x.com", "1.0", ""⟩ addrA addrB 1000000000000000000
      [1, 2, 3] "0xfeedbeef" (by decide) (by decide) (by decide) (by decide)
      (by decide) (by decide) rfl rfl (by decide) (by decide) (by decide)
      (by decide) rfl rfl rfl).2 rfl rfl⟩

/-- Counterexample to C2 as stated: when both backend record creations
fail on a fully valid request, the handler aborts with the 500
`Failed to create transaction records` and no chain broadcast is
attempted, contradicting the claim that the broadcast still happens with
a possibly empty result list. -/
theorem claim_C2_counterexample :
    (paymentEmailToEmail testEnvBothFail "email_3"
        ⟨"a@x.com", "b@x.com", "1.0", ""⟩).1 =
      .serverError "Failed to create transaction records" ∧
    (paymentEmailToEmail testEnvBothFail "email_3"
        ⟨"a@x.com", "b@x.com", "1.0", ""⟩).2.any Effect.isBroadcast =
      false ∧
    (paymentEmailToEmail testEnvBothFail "email_3"
        ⟨"a@x.com", "b@x.com", "1.0", ""⟩).2.any Effect.isRecordCreate =
      true := by
  refine ⟨?_, ?_, ?_⟩ <;> rfl

lemma hexOfBytes_length (bs : List ℕ) :
    (hexOfBytes bs).length = 2 * bs.length := by
  rw [hexOfBytes, String.length_mk]
  induction bs with
  | nil => rfl
  | cons b rest ih =>
      rw [List.map_cons, List.flatten_cons, List.length_append, ih,
        List.length_cons]
      rw [show (hexByteChars b).length = 2 from rfl]
      omega

lemma hex_string_length (bs : List ℕ) :
    ("0x" ++ hexOfBytes bs).length = 2 + 2 * bs.length := by
  rw [String.length_append, hexOfBytes_length]
  rfl

lemma user_prefix_ne_hex (userId s : String) : "User " ++ userId ≠ "0x" ++ s := by
  intro h
  have hh := congrArg String.data h
  rw [String.data_append, String.data_append] at hh
  rw [show ("User ").data = ['U', 's', 'e', 'r', ' '] from rfl,
    show ("0x").data = ['0', 'x'] from rfl] at hh
  simp at hh

/-- Claim C8 (amended): wallet creation never exposes the raw private
key: the stored record holds exactly the encrypted representation
`{iv, content, tag}` plus the address and metadata (none of whose string
fields is the raw key), and the raw key is not among the response body's
string leaves; the response body however carries the fields
`success, address, isFundingAvailable, mapping, message,
stored_in_nodejs` — two more than the four the claim enumerates (see the
counterexample). -/
theorem claim_C8_no_raw_key_exposed (encKey iv now : ℕ)
    (userId userName : String) (randBytes : List ℕ)
    (walletStore : List (String × WalletRecord)) (fundedStore : FundStore)
    (mappingResult : MappingResult)
    (hu : userId ≠ "") (hlen : randBytes.length = 32)
    (hm : ("0x" ++ hexOfBytes randBytes) ∉ mappingResult.strings)
    (hn : userName ≠ "0x" ++ hexOfBytes randBytes) :
    walletCreate encKey userId userName randBytes iv now walletStore
        fundedStore mappingResult =
      some
        ({ success := true
           address := deriveAddress randBytes
           isFundingAvailable :=
             isWalletEligibleForBonus fundedStore (deriveAddress randBytes)
           mapping := mappingResult
           message := "Wallet created successfully"
           stored_in_nodejs := true },
         objSet walletStore userId
           { encryptedKey :=
               encrypt encKey iv (strBytes ("0x" ++ hexOfBytes randBytes))
             address := deriveAddress randBytes
             createdAt := now
             userName :=
               if userName = "" then "User " ++ userId else userName }) ∧
    objLookup
        (objSet walletStore userId
          { encryptedKey :=
              encrypt encKey iv (strBytes ("0x" ++ hexOfBytes randBytes))
            address := deriveAddress randBytes
            createdAt := now
            userName :=
              if userName = "" then "User " ++ userId else userName })
        userId =
      some
        { encryptedKey :=
            encrypt encKey iv (strBytes ("0x" ++ hexOfBytes randBytes))
          address := deriveAddress randBytes
          createdAt := now
          userName :=
            if userName = "" then "User " ++ userId else userName } ∧
    deriveAddress randBytes ≠ "0x" ++ hexOfBytes randBytes ∧
    (if userName = "" then "User " ++ userId else userName) ≠
      "0x" ++ hexOfBytes randBytes ∧
    ("0x" ++ hexOfBytes randBytes) ∉
      CreateWalletResponse.stringLeaves
        { success := true
          address := deriveAddress randBytes
          isFundingAvailable :=
            isWalletEligibleForBonus fundedStore (deriveAddress randBytes)
          mapping := mappingResult
          message := "Wallet created successfully"
          stored_in_nodejs := true } ∧
    createWalletResponseKeys =
      ["success", "address", "isFundingAvailable", "mapping", "message",
       "stored_in_nodejs"] := by
  have hpklen : ("0x" ++ hexOfBytes randBytes).length = 66 := by
    rw [hex_string_length, hlen]
  have haddrlen : (deriveAddress randBytes).length = 42 := by
    rw [deriveAddress, hex_string_length, List.length_map,
      List.length_take, hlen]
    rfl
  have haddrne : deriveAddress randBytes ≠ "0x" ++ hexOfBytes randBytes := by
    intro h
    rw [h, hpklen] at haddrlen
    exact absurd haddrlen (by omega)
  refine ⟨by simp [walletCreate, hu], objLookup_objSet_self _ _ _, haddrne,
    ?_, ?_, rfl⟩
  · by_cases hcase : userName = ""
    · rw [if_pos hcase]
      exact user_prefix_ne_hex userId (hexOfBytes randBytes)
    · rw [if_neg hcase]
      exact hn
  · rw [CreateWalletResponse.stringLeaves]
    intro hmem
    simp only [List.cons_append, List.nil_append, List.mem_cons] at hmem
    rcases hmem with hmem | hmem | hmem
    · exact haddrne hmem.symm
    · have := congrArg String.length hmem
      rw [hpklen] at this
      exact absurd this (by decide)
    · exact hm hmem

/-- Witness for C8 at a concrete creation request: the record is stored
encrypted and the key string appears nowhere in the response leaves. -/
theorem claim_C8_witness :
    walletCreate 7 "u9" "Alice" (List.replicate 32 5) 3 0 [] []
        ⟨true, []⟩ =
      some
        ({ success := true
           address := deriveAddress (List.replicate 32 5)
           isFundingAvailable :=
             isWalletEligibleForBonus [] (deriveAddress (List.replicate 32 5))
           mapping := ⟨true, []⟩
           message := "Wallet created successfully"
           stored_in_nodejs := true },
         objSet [] "u9"
           { encryptedKey :=
               encrypt 7 3
                 (strBytes ("0x" ++ hexOfBytes (List.replicate 32 5)))
             address := deriveAddress (List.replicate 32 5)
             createdAt := 0
             userName := if "Alice" = "" then "User " ++ "u9" else "Alice" }) ∧
    ("0x" ++ hexOfBytes (List.replicate 32 5)) ∉
      CreateWalletResponse.stringLeaves
        { success := true
          address := deriveAddress (List.replicate 32 5)
          isFundingAvailable :=
            isWalletEligibleForBonus [] (deriveAddress (List.replicate 32 5))
          mapping := ⟨true, []⟩
          message := "Wallet created successfully"
          stored_in_nodejs := true } :=
  ⟨(claim_C8_no_raw_key_exposed 7 3 0 "u9" "Alice" (List.replicate 32 5) [] []
      ⟨true, []⟩ (by decide) (by decide) (by simp) (by decide)).1,
   (claim_C8_no_raw_key_exposed 7 3 0 "u9" "Alice" (List.replicate 32 5) [] []
      ⟨true, []⟩ (by decide) (by decide) (by simp) (by decide)).2.2.2.2.1⟩

/-- Counterexample to C8 as stated: the success body of `/wallet/create`
does not contain only the `success`, `address`, eligibility and `mapping`
fields — it also carries a constant `message` and a `stored_in_nodejs`
flag, as the concrete run shows. -/
theorem claim_C8_counterexample :
    (walletCreate 7 "u9" "Alice" (List.replicate 32 5) 3 0 [] []
        ⟨true, []⟩).map
        (fun p => (p.1.message, p.1.stored_in_nodejs)) =
      some ("Wallet created successfully", true) ∧
    "message" ∈ createWalletResponseKeys ∧
    "stored_in_nodejs" ∈ createWalletResponseKeys ∧
    "message" ∉ ["success", "address", "isFundingAvailable", "mapping"] ∧
    "stored_in_nodejs" ∉
      ["success", "address", "isFundingAvailable", "mapping"] := by
  refine ⟨rfl, by decide, by decide, by decide, by decide⟩

end Ledgerly
